import Mathlib

/-!
Shallow embedding of the LuxPower Home Assistant integration's
configuration layer (`custom_components/luxpower_modbus/config_flow.py`
and `custom_components/luxpower_modbus/const.py`).

Python dictionaries of heterogeneous values are embedded as association
lists of `PyValue`; the asynchronous I/O performed by the model-probe
functions is embedded by passing an explicit environment describing the
outcome of each I/O operation, and exceptions are embedded as explicit
outcomes that the `try/except` structure of the source either catches or
does not.  The helper modules `LxpRequestBuilder`, `LxpResponse` and
`decode_model_from_registers` are imported by the source but their code
is not part of this repository; they are modelled from the spec where a
claim needs them.
-/

/-- Embedding of the Python values that flow through the config flow:
integers, strings and booleans. -/
inductive PyValue where
  | pyInt (n : Int)
  | pyStr (s : String)
  | pyBool (b : Bool)
deriving DecidableEq, Repr

/-- Python `str()` on an embedded value. -/
def str_of : PyValue → String
  | .pyInt n => toString n
  | .pyStr s => s
  | .pyBool b => if b then "True" else "False"

/-- Interpret a list of characters as a nonempty run of decimal digits. -/
def digitsToNat : List Char → Option Nat
  | [] => none
  | cs =>
    if cs.all (fun c => c.isDigit) then
      some (cs.foldl (fun acc c => 10 * acc + (c.toNat - 48)) 0)
    else
      none

/-- Python `int()` on a string: optional surrounding whitespace, an
optional sign, then decimal digits; anything else raises `ValueError`
(embedded as `none`). -/
def int_of_string (s : String) : Option Int :=
  match s.trim.toList with
  | '-' :: rest => (digitsToNat rest).map (fun n => -(n : Int))
  | '+' :: rest => (digitsToNat rest).map (fun n => (n : Int))
  | cs => (digitsToNat cs).map (fun n => (n : Int))

/-- Python `int()` on an embedded value; `none` embeds a raised
`ValueError`. -/
def pyToInt : PyValue → Option Int
  | .pyInt n => some n
  | .pyStr s => int_of_string s
  | .pyBool b => some (if b then 1 else 0)

/-- Exceptions observable at the validation boundary: `vol.Invalid`
carrying its message, and any other exception (such as the `ValueError`
of a failed `int()` or the `KeyError` of a missing dictionary key). -/
inductive PyErr where
  | volInvalid (msg : String)
  | otherExc
deriving DecidableEq, Repr

/- Constants from `const.py`. -/

def DOMAIN : String := "luxpower_modbus"

def PROTOCOL_TCP : String := "tcp"

def PROTOCOL_RTU : String := "rtu"

def DEFAULT_POLL_INTERVAL : Int := 60

def DEFAULT_RATED_POWER : Int := 5000

def DEFAULT_READ_ONLY : Bool := false

def DEFAULT_PORT : Int := 8000

def DEFAULT_REGISTER_BLOCK_SIZE : Int := 125

def DEFAULT_CONNECTION_RETRIES : Int := 3

def DEFAULT_ENABLE_DEVICE_GROUPING : Bool := true

def DEFAULT_BAUDRATE : Int := 19200

def DEFAULT_PARITY : String := "N"

def DEFAULT_STOPBITS : Int := 1

def DEFAULT_BYTESIZE : Int := 8

def DEFAULT_SLAVE_ID : Int := 1

def BAUDRATE_OPTIONS : List Int := [9600, 19200, 38400, 57600, 115200]

def PARITY_OPTIONS : List String := ["N", "E", "O"]

def STOPBITS_OPTIONS : List Int := [1, 2]

def BYTESIZE_OPTIONS : List Int := [7, 8]

def RTU_MIN_POLL_INTERVAL : Int := 1

def LEGACY_REGISTER_BLOCK_SIZE : Int := 40

def TOTAL_REGISTERS : Int := 300

def MAX_PACKET_RECOVERY_ATTEMPTS : Int := 3

def MAX_PACKET_SIZE : Int := 1024

/- Validators from `config_flow.py`. -/

/-- `validate_serial` from `config_flow.py`: coerce with `str()` and
require exactly 10 characters. -/
def validate_serial (value : PyValue) : Except PyErr String :=
  let value := str_of value
  if value.length ≠ 10 then
    Except.error (.volInvalid "Serial number must be exactly 10 characters.")
  else
    Except.ok value

/-- `validate_connection_retries` from `config_flow.py`: coerce with
`int()` (which may raise `ValueError`, embedded as `otherExc`) and
require the result to lie in 1..10. -/
def validate_connection_retries (value : PyValue) : Except PyErr Int :=
  match pyToInt value with
  | none => Except.error .otherExc
  | some value =>
    if value < 1 ∨ value > 10 then
      Except.error (.volInvalid "Connection retry attempts must be between 1 and 10.")
    else
      Except.ok value

/- Schema validators, as written in the `vol.Schema` literals of
`config_flow.py`. -/

/-- `vol.Range(min=lo, max=hi)` on an integer. -/
def vol_range (lo hi n : Int) : Bool :=
  decide (lo ≤ n) && decide (n ≤ hi)

/-- `vol.In(xs)` on an integer. -/
def vol_in (xs : List Int) (n : Int) : Bool :=
  xs.contains n

/-- `vol.In(xs)` on a string. -/
def vol_in_str (xs : List String) (s : String) : Bool :=
  xs.contains s

/-- TCP schema, `CONF_POLL_INTERVAL` field: `vol.Range(min=2, max=600)`. -/
def tcp_schema_poll_interval (n : Int) : Bool :=
  vol_range 2 600 n

/-- RTU schema, `CONF_POLL_INTERVAL` field:
`vol.Range(min=RTU_MIN_POLL_INTERVAL, max=600)`. -/
def rtu_schema_poll_interval (n : Int) : Bool :=
  vol_range RTU_MIN_POLL_INTERVAL 600 n

/-- RTU schema, `CONF_SLAVE_ID` field: `vol.Range(min=1, max=247)`. -/
def rtu_schema_slave_id (n : Int) : Bool :=
  vol_range 1 247 n

/-- Both schemas, `CONF_RATED_POWER` field:
`vol.Range(min=1000, max=100000)`. -/
def schema_rated_power (n : Int) : Bool :=
  vol_range 1000 100000 n

/-- Both schemas, `CONF_CONNECTION_RETRIES` field:
`vol.Range(min=1, max=10)`. -/
def schema_connection_retries (n : Int) : Bool :=
  vol_range 1 10 n

/-- Both schemas, `CONF_REGISTER_BLOCK_SIZE` field:
`vol.In([DEFAULT_REGISTER_BLOCK_SIZE, LEGACY_REGISTER_BLOCK_SIZE])`. -/
def schema_register_block_size (n : Int) : Bool :=
  vol_in [DEFAULT_REGISTER_BLOCK_SIZE, LEGACY_REGISTER_BLOCK_SIZE] n

/-- RTU schema, `CONF_BAUDRATE` field: `vol.In(BAUDRATE_OPTIONS)`. -/
def rtu_schema_baudrate (n : Int) : Bool :=
  vol_in BAUDRATE_OPTIONS n

/-- RTU schema, `CONF_PARITY` field: `vol.In(PARITY_OPTIONS)`. -/
def rtu_schema_parity (s : String) : Bool :=
  vol_in_str PARITY_OPTIONS s

/-- RTU schema, `CONF_STOPBITS` field: `vol.In(STOPBITS_OPTIONS)`. -/
def rtu_schema_stopbits (n : Int) : Bool :=
  vol_in STOPBITS_OPTIONS n

/-- RTU schema, `CONF_BYTESIZE` field: `vol.In(BYTESIZE_OPTIONS)`. -/
def rtu_schema_bytesize (n : Int) : Bool :=
  vol_in BYTESIZE_OPTIONS n

/- Model probe over TCP and RTU (`config_flow.py` lines 39-87).  The
awaited I/O is embedded as an explicit environment recording the outcome
of each operation; a raised exception is an explicit outcome, and the
embedding of each function reproduces exactly which statements have run
when it occurs (in particular whether the connection was closed). -/

/-- Modelled from the spec: `LxpRequestBuilder.prepare_packet_for_read`
(in `classes/lxp_request_builder.py`, which is not under `src/`).  Per
spec section 4.1 the builder is a pure construction from the dongle
serial, the inverter serial, the starting register address, the register
count and the function code; the embedding keeps these fields abstract
as a record rather than serialising them to bytes. -/
structure LxpReadRequest where
  dongle : String
  inverter : String
  address : Nat
  count : Nat
  functionCode : Nat
deriving DecidableEq, Repr

/-- `LxpRequestBuilder.prepare_packet_for_read`, modelled from the spec
as the record of its arguments (see `LxpReadRequest`). -/
def prepare_packet_for_read (dongle inverter : String) (address count functionCode : Nat) : LxpReadRequest :=
  ⟨dongle, inverter, address, count, functionCode⟩

/-- Modelled from the spec: the parsed view of `LxpResponse` (in
`classes/lxp_response.py`, which is not under `src/`).  Per spec section
4.2 a parsed response exposes an error flag and, when well-formed, a
register address to value mapping. -/
structure LxpResp where
  packet_error : Bool
  parsed_values_dictionary : List (Nat × Nat)
deriving DecidableEq, Repr

/-- Modelled from the spec: composition of registers 7 and 8 into a
single model code (`decode_model_from_registers` reads registers 7-8;
the exact word order of the composition is not observable from the
claims settled here). -/
def model_code (lo hi : Nat) : Nat :=
  lo + 65536 * hi

/-- Modelled from the spec: `decode_model_from_registers` (in
`utils.py`, which is not under `src/`).  Per spec sections 4.5 and 8:
given registers 7-8 encoding a known model code it returns the
documented model string, given an unknown code it returns absent, never
an exception; the table of documented model codes is a parameter. -/
def decode_model_from_registers (table : List (Nat × String)) (regs : List (Nat × Nat)) : Option String :=
  match regs.lookup 7, regs.lookup 8 with
  | some lo, some hi => table.lookup (model_code lo hi)
  | _, _ => none

/-- Outcomes of the awaited I/O inside `get_inverter_model_from_device_tcp`:
whether `asyncio.open_connection` succeeds, whether `writer.write` and
`writer.drain` succeed, what `reader.read(512)` does (`none` embeds a
raised exception, `some buf` the returned bytes), and what the
`LxpResponse` constructor does on a buffer (`none` embeds a raised
exception). -/
structure TcpEnv where
  openOk : Bool
  drainOk : Bool
  readResult : Option (List Nat)
  parse : List Nat → Option LxpResp

/-- Observable trace of one call of `get_inverter_model_from_device_tcp`:
the returned value, whether the connection was opened, whether
`writer.close()` was reached, and the read request that was built. -/
structure TcpProbeTrace where
  result : Option String
  opened : Bool
  closed : Bool
  request : Option LxpReadRequest

/-- `get_inverter_model_from_device_tcp` from `config_flow.py`, embedded
over an explicit I/O environment.  The whole body sits in
`try: ... except Exception: return None`, so every raised exception
yields the value `none`; `writer.close()` is only reached on the
statement after a successful `reader.read`, so exceptions raised by
`writer.drain` or `reader.read` leave the connection unclosed. -/
def get_inverter_model_from_device_tcp (decode : List (Nat × Nat) → Option String) (env : TcpEnv) (host : String) (port : Int) (dongle_serial inverter_serial : String) : TcpProbeTrace :=
  if !env.openOk then
    { result := none, opened := false, closed := false, request := none }
  else
    let req := prepare_packet_for_read dongle_serial inverter_serial 7 2 3
    if !env.drainOk then
      { result := none, opened := true, closed := false, request := some req }
    else
      match env.readResult with
      | none =>
        { result := none, opened := true, closed := false, request := some req }
      | some response_buf =>
        if response_buf.isEmpty then
          { result := none, opened := true, closed := true, request := some req }
        else
          match env.parse response_buf with
          | none =>
            { result := none, opened := true, closed := true, request := some req }
          | some response =>
            if response.packet_error then
              { result := none, opened := true, closed := true, request := some req }
            else
              { result := decode response.parsed_values_dictionary,
                opened := true, closed := true, request := some req }

/-- Result object of `client.read_holding_registers` in the RTU probe:
an error flag and the returned register values. -/
structure RtuReadResult where
  isError : Bool
  registers : List Nat
deriving DecidableEq, Repr

/-- Outcomes of the I/O inside `get_inverter_model_from_device_rtu`:
whether `client.connect()` returns truthy, and what
`client.read_holding_registers` does (`none` embeds a raised
exception). -/
structure RtuEnv where
  connectOk : Bool
  readResult : Option RtuReadResult

/-- Observable trace of one call of `get_inverter_model_from_device_rtu`:
the returned value, whether the client connected, whether
`client.close()` was reached, and the issued read request as
(address, count, slave id). -/
structure RtuProbeTrace where
  result : Option String
  connected : Bool
  closed : Bool
  readRequest : Option (Nat × Nat × Int)

/-- `get_inverter_model_from_device_rtu` from `config_flow.py`, embedded
over an explicit I/O environment.  The whole body sits in
`try: ... except Exception: return None`; `client.close()` is the
statement after `client.read_holding_registers`, so an exception raised
by the read leaves the client unclosed. -/
def get_inverter_model_from_device_rtu (decode : List (Nat × Nat) → Option String) (env : RtuEnv) (serial_port : String) (baudrate : Int) (parity : String) (stopbits bytesize : Int) (slave_id : Int) : RtuProbeTrace :=
  if !env.connectOk then
    { result := none, connected := false, closed := false, readRequest := none }
  else
    match env.readResult with
    | none =>
      { result := none, connected := true, closed := false, readRequest := some (7, 2, slave_id) }
    | some result =>
      if result.isError then
        { result := none, connected := true, closed := true, readRequest := some (7, 2, slave_id) }
      else
        let registers_dict := result.registers.enum.map (fun p => (7 + p.1, p.2))
        { result := decode registers_dict,
          connected := true, closed := true, readRequest := some (7, 2, slave_id) }

/- Setup flow steps (`LxpModbusConfigFlow.async_step_tcp` and
`async_step_rtu`).  The submitted `user_input` has already passed the
voluptuous schema, so it is embedded as a typed record; the awaited
model probe is embedded by its returned value (an `Option String`, which
by the totality of the probe functions is all a caller can observe). -/

/-- Fields of the TCP setup form (`async_step_tcp` schema).
`connection_retries` is read with `.get(CONF_CONNECTION_RETRIES,
DEFAULT_CONNECTION_RETRIES)`, hence embedded as an `Option`. -/
structure TcpUserInput where
  host : String
  port : Int
  dongle_serial : String
  inverter_serial : String
  poll_interval : Int
  entityPrefix : String
  rated_power : Int
  read_only : Bool
  register_block_size : Int
  connection_retries : Option Int
  enable_device_grouping : Bool
deriving DecidableEq, Repr

/-- Data of a config entry created by the TCP setup step: the submitted
input with `protocol` and `model` keys added. -/
structure TcpEntryData where
  input : TcpUserInput
  protocol : String
  model : String
deriving DecidableEq, Repr

/-- Result of one submission to a setup step: the `errors` dictionary of
the re-shown form, whether the model probe was invoked, and the created
entry (title and data) if any. -/
structure TcpStepResult where
  errors : List (String × String)
  probeCalled : Bool
  entry : Option (String × TcpEntryData)
deriving DecidableEq, Repr

/-- `LxpModbusConfigFlow.async_step_tcp` from `config_flow.py`, on a
submitted form (`user_input is not None`).  The probe outcome is the
value the awaited `get_inverter_model_from_device_tcp` call returns; the
source guards entry creation with `if not model:`, so both `None` and
the empty string count as failure. -/
def async_step_tcp (probe : Option String) (inp : TcpUserInput) : TcpStepResult :=
  let errs1 :=
    match validate_serial (.pyStr inp.dongle_serial) with
    | .error _ => [("dongle_serial", "invalid_serial")]
    | .ok _ => []
  let errs2 :=
    match validate_serial (.pyStr inp.inverter_serial) with
    | .error _ => errs1 ++ [("inverter_serial", "invalid_serial")]
    | .ok _ => errs1
  let errs3 :=
    match validate_connection_retries (.pyInt (inp.connection_retries.getD DEFAULT_CONNECTION_RETRIES)) with
    | .error _ => errs2 ++ [("connection_retries", "invalid_connection_retries")]
    | .ok _ => errs2
  if errs3.isEmpty then
    match probe with
    | none =>
      { errors := [("base", "model_fetch_failed")], probeCalled := true, entry := none }
    | some model =>
      if model = "" then
        { errors := [("base", "model_fetch_failed")], probeCalled := true, entry := none }
      else
        let title := if inp.entityPrefix = "" then "Luxpower Inverter" else inp.entityPrefix
        { errors := [], probeCalled := true,
          entry := some (title, { input := inp, protocol := PROTOCOL_TCP, model := model }) }
  else
    { errors := errs3, probeCalled := false, entry := none }

/-- Fields of the RTU setup form (`async_step_rtu` schema). -/
structure RtuUserInput where
  serial_port : String
  baudrate : Int
  parity : String
  stopbits : Int
  bytesize : Int
  slave_id : Int
  poll_interval : Int
  entityPrefix : String
  rated_power : Int
  read_only : Bool
  register_block_size : Int
  connection_retries : Option Int
  enable_device_grouping : Bool
deriving DecidableEq, Repr

/-- Left-pad a digit string with zeros to the given width, as the
Python format mini-language does inside the sign. -/
def zfill_digits (digits : String) (width : Nat) : String :=
  String.mk (List.replicate (width - digits.length) '0') ++ digits

/-- Python `f-string` formatting with format spec `010d`: the decimal
rendering of the integer, zero-padded to total width 10 with the sign,
if any, ahead of the padding. -/
def python_format_010d (n : Int) : String :=
  if n < 0 then "-" ++ zfill_digits (toString (-n)) 9
  else zfill_digits (toString n) 10

/-- Data of a config entry created by the RTU setup step: the submitted
input with `protocol`, `model` and the two synthesized serial keys
added. -/
structure RtuEntryData where
  input : RtuUserInput
  protocol : String
  model : String
  dongle_serial : String
  inverter_serial : String
deriving DecidableEq, Repr

/-- Result of one submission to the RTU setup step. -/
structure RtuStepResult where
  errors : List (String × String)
  probeCalled : Bool
  entry : Option (String × RtuEntryData)
deriving DecidableEq, Repr

/-- `LxpModbusConfigFlow.async_step_rtu` from `config_flow.py`, on a
submitted form.  On success the source synthesizes
`user_input[CONF_DONGLE_SERIAL] = "RTU_DEVICE"` and
`user_input[CONF_INVERTER_SERIAL] = f"RTU_{slave_id:010d}"`. -/
def async_step_rtu (probe : Option String) (inp : RtuUserInput) : RtuStepResult :=
  let errs1 :=
    match validate_connection_retries (.pyInt (inp.connection_retries.getD DEFAULT_CONNECTION_RETRIES)) with
    | .error _ => [("connection_retries", "invalid_connection_retries")]
    | .ok _ => []
  if errs1.isEmpty then
    match probe with
    | none =>
      { errors := [("base", "model_fetch_failed_rtu")], probeCalled := true, entry := none }
    | some model =>
      if model = "" then
        { errors := [("base", "model_fetch_failed_rtu")], probeCalled := true, entry := none }
      else
        let title := if inp.entityPrefix = "" then "Luxpower Inverter RTU" else inp.entityPrefix
        { errors := [], probeCalled := true,
          entry := some (title,
            { input := inp, protocol := PROTOCOL_RTU, model := model,
              dongle_serial := "RTU_DEVICE",
              inverter_serial := "RTU_" ++ python_format_010d inp.slave_id }) }
  else
    { errors := errs1, probeCalled := false, entry := none }

/- Options flow (`LxpModbusOptionsFlow.async_step_init`).  Here the
merge semantics of Python dictionaries is the object of study, so the
configuration dictionaries are embedded as association lists of
`PyValue` with insertion-order semantics. -/

/-- Embedding of a Python dict of configuration values. -/
abbrev Config : Type := List (String × PyValue)

/-- Python `d[k]` and `d.get(k)`: the value at the first (unique
once built by `dict_insert`) occurrence of the key. -/
def dict_get (d : Config) (k : String) : Option PyValue :=
  (List.find? (fun p => p.1 = k) d).map (fun p => p.2)

/-- Python `d[k] = v`: overwrite in place when the key exists, append
otherwise. -/
def dict_insert (d : Config) (k : String) (v : PyValue) : Config :=
  if (List.any d (fun p => p.1 = k)) then
    List.map (fun p => if p.1 = k then (k, v) else p) d
  else
    d ++ [(k, v)]

/-- Python `{**a, **b}`: the keys of `a` in order with values overridden
by `b`, then the new keys of `b` in order. -/
def dict_merge (a b : Config) : Config :=
  List.foldl (fun acc p => dict_insert acc p.1 p.2) a b

/-- Result of one submission to `LxpModbusOptionsFlow.async_step_init`:
the `errors` dictionary of the re-shown form, the data passed to
`async_update_entry` when the update happened (the source also resets
`options` to the empty dict and reloads the entry), and whether the
final `async_create_entry` was reached. -/
structure OptionsStepResult where
  errors : List (String × String)
  updated : Option Config
  created : Bool

/-- Protocol selected for the options form:
`current_config.get(CONF_PROTOCOL, PROTOCOL_TCP)` compared against
`PROTOCOL_TCP`. -/
def options_protocol_is_tcp (current_config : Config) : Bool :=
  (dict_get current_config "protocol").getD (.pyStr PROTOCOL_TCP) = PyValue.pyStr PROTOCOL_TCP

/-- Outcome of the `config_flow.py` options-flow body after the retries
check, for the TCP branch: validation errors gathered from the two
serial fields, `none` when a `KeyError` escapes to the outer
`except Exception`. -/
def options_tcp_serial_errors (user_input : Config) : Option (List (String × String)) :=
  match dict_get user_input "dongle_serial" with
  | none => none
  | some dv =>
    let errsD :=
      match validate_serial dv with
      | .error _ => [("dongle_serial", "invalid_serial")]
      | .ok _ => []
    match dict_get user_input "inverter_serial" with
    | none => none
    | some iv =>
      match validate_serial iv with
      | .error _ => some (errsD ++ [("inverter_serial", "invalid_serial")])
      | .ok _ => some errsD

/-- Keys the TCP branch of the options flow reads with `user_input[...]`
before awaiting the probe; a missing one raises `KeyError`. -/
def options_tcp_probe_keys_present (user_input : Config) : Bool :=
  (dict_get user_input "host").isSome && (dict_get user_input "port").isSome

/-- Keys the RTU branch of the options flow reads with `user_input[...]`
before awaiting the probe; a missing one raises `KeyError`. -/
def options_rtu_probe_keys_present (user_input : Config) : Bool :=
  (dict_get user_input "serial_port").isSome && (dict_get user_input "baudrate").isSome &&
  (dict_get user_input "parity").isSome && (dict_get user_input "stopbits").isSome &&
  (dict_get user_input "bytesize").isSome && (dict_get user_input "slave_id").isSome

/-- `LxpModbusOptionsFlow.async_step_init` from `config_flow.py`, on a
submitted form.  `entry_data` and `entry_options` are the stored
`config_entry.data` and `config_entry.options`; `tcpProbe` and
`rtuProbe` are the values the awaited probe calls would return.  A
`KeyError` or a `ValueError` inside the outer `try` is caught by
`except Exception` and reported as the `unknown` base error; the entry
is updated (with `{**current_config, **user_input}` plus the probed
model, and `options` cleared) only when no error was recorded. -/
def async_step_init (tcpProbe rtuProbe : Option String) (entry_data entry_options user_input : Config) : OptionsStepResult :=
  let current_config := dict_merge entry_data entry_options
  let retriesArg := (dict_get user_input "connection_retries").getD (.pyInt DEFAULT_CONNECTION_RETRIES)
  match validate_connection_retries retriesArg with
  | .error .otherExc =>
    { errors := [("base", "unknown")], updated := none, created := false }
  | .error (.volInvalid _) =>
    { errors := [("connection_retries", "invalid_connection_retries")], updated := none, created := false }
  | .ok _ =>
    if options_protocol_is_tcp current_config then
      match options_tcp_serial_errors user_input with
      | none =>
        { errors := [("base", "unknown")], updated := none, created := false }
      | some serialErrs =>
        if serialErrs.isEmpty then
          if options_tcp_probe_keys_present user_input then
            match tcpProbe with
            | none =>
              { errors := [("base", "model_fetch_failed")], updated := none, created := false }
            | some model =>
              if model = "" then
                { errors := [("base", "model_fetch_failed")], updated := none, created := false }
              else
                { errors := [],
                  updated := some (dict_insert (dict_merge current_config user_input) "model" (.pyStr model)),
                  created := true }
          else
            { errors := [("base", "unknown")], updated := none, created := false }
        else
          { errors := serialErrs, updated := none, created := false }
    else
      if options_rtu_probe_keys_present user_input then
        match rtuProbe with
        | none =>
          { errors := [("base", "model_fetch_failed_rtu")], updated := none, created := false }
        | some model =>
          if model = "" then
            { errors := [("base", "model_fetch_failed_rtu")], updated := none, created := false }
          else
            { errors := [],
              updated := some (dict_insert (dict_merge current_config user_input) "model" (.pyStr model)),
              created := true }
      else
        { errors := [("base", "unknown")], updated := none, created := false }

/- Theorems. -/

/-- C10: `validate_serial` converts its argument with `str()` before
checking length, so every value whose string rendering has exactly 10
characters is accepted and returned as that string — including a
10-digit integer — and the check counts characters, not encoded bytes
(a 10-character string of 11 UTF-8 bytes is accepted). -/
theorem validate_serial_str_coercion (v : PyValue) :
    validate_serial v =
      (if (str_of v).length = 10 then Except.ok (str_of v)
       else Except.error (.volInvalid "Serial number must be exactly 10 characters.")) ∧
    validate_serial (.pyInt 1234567890) = Except.ok "1234567890" ∧
    validate_serial (.pyStr "ä123456789") = Except.ok "ä123456789" ∧
    ("ä123456789" : String).length = 10 ∧
    ("ä123456789" : String).utf8ByteSize = 11 := by
  refine ⟨?_, rfl, rfl, rfl, rfl⟩
  unfold validate_serial
  by_cases h : (str_of v).length = 10 <;> simp [h]

/-- C7: `validate_connection_retries` returns its input (converted to
int) whenever the conversion lies in 1..10, and raises `vol.Invalid`
whenever the conversion is below 1 or above 10. -/
theorem validate_connection_retries_range (v : PyValue) (n : Int) (hconv : pyToInt v = some n) :
    (1 ≤ n → n ≤ 10 → validate_connection_retries v = Except.ok n) ∧
    (n < 1 ∨ 10 < n →
      validate_connection_retries v =
        Except.error (.volInvalid "Connection retry attempts must be between 1 and 10.")) := by
  unfold validate_connection_retries
  rw [hconv]
  constructor
  · intro h1 h2
    have hno : ¬(n < 1 ∨ n > 10) := by omega
    simp [hno]
  · intro h
    have hyes : n < 1 ∨ n > 10 := by omega
    simp [hyes]

/-- Witness for C7 at the concrete inputs 3 (accepted) and 11
(rejected). -/
theorem validate_connection_retries_range_witness :
    validate_connection_retries (.pyInt 3) = Except.ok 3 ∧
    validate_connection_retries (.pyInt 11) =
      Except.error (.volInvalid "Connection retry attempts must be between 1 and 10.") :=
  ⟨(validate_connection_retries_range (.pyInt 3) 3 rfl).1 (by decide) (by decide),
   (validate_connection_retries_range (.pyInt 11) 11 rfl).2 (Or.inr (by decide))⟩

/-- C8: the TCP schema accepts a poll interval of 2..600 seconds and
the RTU schema one of 1..600 seconds. -/
theorem poll_interval_schema_bounds (n : Int) :
    (tcp_schema_poll_interval n = true ↔ 2 ≤ n ∧ n ≤ 600) ∧
    (rtu_schema_poll_interval n = true ↔ 1 ≤ n ∧ n ≤ 600) := by
  constructor <;>
    simp [tcp_schema_poll_interval, rtu_schema_poll_interval, vol_range, RTU_MIN_POLL_INTERVAL]

/-- Witness for C8 at the concrete poll intervals 2 (TCP) and 1
(RTU). -/
theorem poll_interval_schema_bounds_witness :
    tcp_schema_poll_interval 2 = true ∧ rtu_schema_poll_interval 1 = true :=
  ⟨(poll_interval_schema_bounds 2).1.mpr (by decide),
   (poll_interval_schema_bounds 1).2.mpr (by decide)⟩

/-- C9: the configuration defaults and allowed value sets — port 8000,
baud rate 19200 out of 9600/19200/38400/57600/115200, parity N out of
N/E/O, stop bits 1 out of 1/2, byte size 8 out of 7/8, slave id
default 1 with range 1..247, register block size 125 with 40 as the
only alternative, connection retries default 3, rated power restricted
to 1000..100000. -/
theorem config_defaults_and_option_sets :
    DEFAULT_PORT = 8000 ∧
    DEFAULT_BAUDRATE = 19200 ∧
    BAUDRATE_OPTIONS = [9600, 19200, 38400, 57600, 115200] ∧
    DEFAULT_PARITY = "N" ∧
    PARITY_OPTIONS = ["N", "E", "O"] ∧
    DEFAULT_STOPBITS = 1 ∧
    STOPBITS_OPTIONS = [1, 2] ∧
    DEFAULT_BYTESIZE = 8 ∧
    BYTESIZE_OPTIONS = [7, 8] ∧
    DEFAULT_SLAVE_ID = 1 ∧
    (∀ n : Int, rtu_schema_slave_id n = true ↔ 1 ≤ n ∧ n ≤ 247) ∧
    DEFAULT_REGISTER_BLOCK_SIZE = 125 ∧
    LEGACY_REGISTER_BLOCK_SIZE = 40 ∧
    (∀ n : Int, schema_register_block_size n = true ↔ n = 125 ∨ n = 40) ∧
    DEFAULT_CONNECTION_RETRIES = 3 ∧
    (∀ n : Int, schema_rated_power n = true ↔ 1000 ≤ n ∧ n ≤ 100000) ∧
    rtu_schema_baudrate DEFAULT_BAUDRATE = true ∧
    rtu_schema_parity DEFAULT_PARITY = true ∧
    rtu_schema_stopbits DEFAULT_STOPBITS = true ∧
    rtu_schema_bytesize DEFAULT_BYTESIZE = true := by
  refine ⟨rfl, rfl, rfl, rfl, rfl, rfl, rfl, rfl, rfl, rfl, ?_, rfl, rfl, ?_, rfl, ?_, rfl, rfl, rfl, rfl⟩
  · intro n
    simp [rtu_schema_slave_id, vol_range]
  · intro n
    simp [schema_register_block_size, vol_in, DEFAULT_REGISTER_BLOCK_SIZE,
      LEGACY_REGISTER_BLOCK_SIZE, List.contains]
  · intro n
    simp [schema_rated_power, vol_range]

/- Helper lemmas on the validators. -/

/-- A value whose string rendering is not 10 characters long fails
`validate_serial` with `vol.Invalid`. -/
lemma validate_serial_error_of_length_ne (v : PyValue) (h : (str_of v).length ≠ 10) :
    validate_serial v =
      Except.error (.volInvalid "Serial number must be exactly 10 characters.") := by
  simp [validate_serial, h]

/-- A value whose string rendering is 10 characters long passes
`validate_serial`. -/
lemma validate_serial_ok_of_length_eq (v : PyValue) (h : (str_of v).length = 10) :
    validate_serial v = Except.ok (str_of v) := by
  simp [validate_serial, h]

/-- Concrete TCP submission with a 5-character dongle serial. -/
def tcpInputShortSerial : TcpUserInput :=
  { host := "10.0.0.5", port := 8000, dongle_serial := "SHORT",
    inverter_serial := "CD12345678", poll_interval := 60, entityPrefix := "",
    rated_power := 5000, read_only := false, register_block_size := 125,
    connection_retries := some 3, enable_device_grouping := true }

/-- C1: a TCP setup submission whose dongle or inverter serial is not
exactly 10 characters long reports an `invalid_serial` error on that
field, does not invoke the model probe, and does not create a config
entry. -/
theorem tcp_setup_invalid_serial_blocks (probe : Option String) (inp : TcpUserInput)
    (h : inp.dongle_serial.length ≠ 10 ∨ inp.inverter_serial.length ≠ 10) :
    (inp.dongle_serial.length ≠ 10 →
      ("dongle_serial", "invalid_serial") ∈ (async_step_tcp probe inp).errors) ∧
    (inp.inverter_serial.length ≠ 10 →
      ("inverter_serial", "invalid_serial") ∈ (async_step_tcp probe inp).errors) ∧
    (async_step_tcp probe inp).probeCalled = false ∧
    (async_step_tcp probe inp).entry = none := by
  by_cases hD : inp.dongle_serial.length = 10 <;>
    by_cases hI : inp.inverter_serial.length = 10
  · rcases h with h1 | h1
    · exact absurd hD h1
    · exact absurd hI h1
  all_goals
    rcases hval : validate_connection_retries
        (.pyInt (inp.connection_retries.getD DEFAULT_CONNECTION_RETRIES)) with e | k <;>
      simp [async_step_tcp, hval, hD, hI,
        validate_serial_error_of_length_ne (.pyStr inp.dongle_serial),
        validate_serial_error_of_length_ne (.pyStr inp.inverter_serial),
        validate_serial_ok_of_length_eq (.pyStr inp.dongle_serial),
        validate_serial_ok_of_length_eq (.pyStr inp.inverter_serial), str_of]

/-- Witness for C1: the concrete submission with dongle serial "SHORT"
is rejected with `invalid_serial`, without probing or creating an
entry. -/
theorem tcp_setup_invalid_serial_blocks_witness :
    ("dongle_serial", "invalid_serial") ∈ (async_step_tcp (some "LXP") tcpInputShortSerial).errors ∧
    (async_step_tcp (some "LXP") tcpInputShortSerial).probeCalled = false ∧
    (async_step_tcp (some "LXP") tcpInputShortSerial).entry = none := by
  have h := tcp_setup_invalid_serial_blocks (some "LXP") tcpInputShortSerial
    (Or.inl (by decide))
  exact ⟨h.1 (by decide), h.2.2.1, h.2.2.2⟩

/-- C2: under every I/O outcome (open failure, empty read, errored
response packet, exception raised mid-exchange) both model probes
return a value — a model string or `none` — and never propagate an
exception; an empty TCP read yields `none` and a response with the
packet error flag set yields `none`. -/
theorem probe_model_total (decode : List (Nat × Nat) → Option String)
    (env : TcpEnv) (renv : RtuEnv) (host : String) (port : Int)
    (dongle_serial inverter_serial serial_port : String)
    (baudrate : Int) (parity : String) (stopbits bytesize slave_id : Int) :
    ((get_inverter_model_from_device_tcp decode env host port dongle_serial inverter_serial).result = none ∨
      ∃ m, (get_inverter_model_from_device_tcp decode env host port dongle_serial inverter_serial).result = some m) ∧
    (env.readResult = some [] →
      (get_inverter_model_from_device_tcp decode env host port dongle_serial inverter_serial).result = none) ∧
    (∀ buf resp, env.readResult = some buf → env.parse buf = some resp → resp.packet_error = true →
      (get_inverter_model_from_device_tcp decode env host port dongle_serial inverter_serial).result = none) ∧
    ((get_inverter_model_from_device_rtu decode renv serial_port baudrate parity stopbits bytesize slave_id).result = none ∨
      ∃ m, (get_inverter_model_from_device_rtu decode renv serial_port baudrate parity stopbits bytesize slave_id).result = some m) ∧
    (∀ res, renv.readResult = some res → res.isError = true →
      (get_inverter_model_from_device_rtu decode renv serial_port baudrate parity stopbits bytesize slave_id).result = none) := by
  refine ⟨?_, ?_, ?_, ?_, ?_⟩
  · exact Option.eq_none_or_eq_some _
  · intro hread
    by_cases ho : env.openOk <;> by_cases hd : env.drainOk <;>
      simp [get_inverter_model_from_device_tcp, ho, hd, hread]
  · intro buf resp hread hparse hflag
    by_cases ho : env.openOk <;> by_cases hd : env.drainOk <;>
      by_cases hb : buf.isEmpty <;>
      simp [get_inverter_model_from_device_tcp, ho, hd, hread, hb, hparse, hflag]
  · exact Option.eq_none_or_eq_some _
  · intro res hread herr
    by_cases hc : renv.connectOk <;>
      simp [get_inverter_model_from_device_rtu, hc, hread, herr]

/-- Concrete TCP I/O environment for the C2 witness: the connection
opens, the exchange succeeds and the read returns no bytes. -/
def tcpEnvEmptyRead : TcpEnv :=
  { openOk := true, drainOk := true, readResult := some [],
    parse := fun _ => none }

/-- Concrete RTU I/O environment for the C2 witness: the client
connects and the read returns an errored result. -/
def rtuEnvErrorRead : RtuEnv :=
  { connectOk := true, readResult := some { isError := true, registers := [] } }

/-- Witness for C2: an empty TCP read and an errored RTU read both
yield `none` at concrete inputs. -/
theorem probe_model_total_witness :
    (get_inverter_model_from_device_tcp (fun _ => none) tcpEnvEmptyRead
      "10.0.0.5" 8000 "BA12345678" "CD12345678").result = none ∧
    (get_inverter_model_from_device_rtu (fun _ => none) rtuEnvErrorRead
      "/dev/ttyUSB0" 19200 "N" 1 8 1).result = none := by
  have h := probe_model_total (fun _ => none) tcpEnvEmptyRead rtuEnvErrorRead
    "10.0.0.5" 8000 "BA12345678" "CD12345678" "/dev/ttyUSB0" 19200 "N" 1 8 1
  exact ⟨h.2.1 rfl, h.2.2.2.2 { isError := true, registers := [] } rfl rfl⟩

/-- C6: on both transports the model probe reads exactly 2 holding
registers starting at address 7 with function code 3, and the decoder
yields `none` on an absent or unknown model code rather than an
exception. -/
theorem probe_reads_registers_seven_eight (decode : List (Nat × Nat) → Option String)
    (env : TcpEnv) (renv : RtuEnv) (host : String) (port : Int)
    (dongle_serial inverter_serial serial_port : String)
    (baudrate : Int) (parity : String) (stopbits bytesize slave_id : Int)
    (table : List (Nat × String)) (regs : List (Nat × Nat)) :
    (env.openOk = true →
      (get_inverter_model_from_device_tcp decode env host port dongle_serial inverter_serial).request =
        some { dongle := dongle_serial, inverter := inverter_serial,
               address := 7, count := 2, functionCode := 3 }) ∧
    (renv.connectOk = true →
      (get_inverter_model_from_device_rtu decode renv serial_port baudrate parity stopbits bytesize slave_id).readRequest =
        some (7, 2, slave_id)) ∧
    (regs.lookup 7 = none ∨ regs.lookup 8 = none →
      decode_model_from_registers table regs = none) ∧
    (∀ lo hi, regs.lookup 7 = some lo → regs.lookup 8 = some hi →
      (table.lookup (model_code lo hi) = none → decode_model_from_registers table regs = none) ∧
      (∀ s, table.lookup (model_code lo hi) = some s → decode_model_from_registers table regs = some s)) := by
  refine ⟨?_, ?_, ?_, ?_⟩
  · intro ho
    by_cases hd : env.drainOk <;> rcases hr : env.readResult with _ | buf <;>
      simp [get_inverter_model_from_device_tcp, prepare_packet_for_read, ho, hd, hr] <;>
      (by_cases hb : buf.isEmpty <;> rcases hp : env.parse buf with _ | resp <;>
        simp [hb, hp] <;> by_cases hf : resp.packet_error <;> simp [hf] <;>
        split <;> rfl)
  · intro hc
    rcases hr : renv.readResult with _ | res <;>
      simp [get_inverter_model_from_device_rtu, hc, hr] <;>
      by_cases he : res.isError <;> simp [he]
  · intro h
    rcases h with h | h <;> simp [decode_model_from_registers, h]
  · intro lo hi h7 h8
    constructor
    · intro hu
      simp [decode_model_from_registers, h7, h8, hu]
    · intro s hs
      simp [decode_model_from_registers, h7, h8, hs]

/-- Concrete environments, model table and register map for the C6
witness. -/
def tcpEnvOpenOnly : TcpEnv :=
  { openOk := true, drainOk := false, readResult := none, parse := fun _ => none }

/-- Concrete RTU environment for the C6 witness. -/
def rtuEnvConnectOnly : RtuEnv :=
  { connectOk := true, readResult := none }

/-- Witness for C6 at concrete inputs: the built TCP request and issued
RTU read target registers 7-8 with function code 3, and the decoder
returns `none` on an unknown code and the documented string on a known
one. -/
theorem probe_reads_registers_seven_eight_witness :
    (get_inverter_model_from_device_tcp (fun _ => none) tcpEnvOpenOnly
      "10.0.0.5" 8000 "BA12345678" "CD12345678").request =
      some { dongle := "BA12345678", inverter := "CD12345678",
             address := 7, count := 2, functionCode := 3 } ∧
    (get_inverter_model_from_device_rtu (fun _ => none) rtuEnvConnectOnly
      "/dev/ttyUSB0" 19200 "N" 1 8 1).readRequest = some (7, 2, 1) ∧
    decode_model_from_registers [(3, "LXP 12K")] [(7, 9), (8, 0)] = none ∧
    decode_model_from_registers [(3, "LXP 12K")] [(7, 3), (8, 0)] = some "LXP 12K" := by
  have h := probe_reads_registers_seven_eight (fun _ => none) tcpEnvOpenOnly rtuEnvConnectOnly
    "10.0.0.5" 8000 "BA12345678" "CD12345678" "/dev/ttyUSB0" 19200 "N" 1 8 1
    [(3, "LXP 12K")] [(7, 9), (8, 0)]
  have h2 := probe_reads_registers_seven_eight (fun _ => none) tcpEnvOpenOnly rtuEnvConnectOnly
    "10.0.0.5" 8000 "BA12345678" "CD12345678" "/dev/ttyUSB0" 19200 "N" 1 8 1
    [(3, "LXP 12K")] [(7, 3), (8, 0)]
  exact ⟨h.1 rfl, h.2.1 rfl,
    ((h.2.2.2 9 0 rfl rfl).1 rfl),
    ((h2.2.2.2 3 0 rfl rfl).2 "LXP 12K" rfl)⟩

/-- Concrete TCP I/O environment on which `reader.read` raises after a
successful `asyncio.open_connection`. -/
def tcpEnvReadRaises : TcpEnv :=
  { openOk := true, drainOk := true, readResult := none, parse := fun _ => none }

/-- Concrete RTU I/O environment on which `read_holding_registers`
raises after a successful `client.connect()`. -/
def rtuEnvReadRaises : RtuEnv :=
  { connectOk := true, readResult := none }

/-- C3 (evaluation at the failing input): when an exception is raised
mid-exchange — `reader.read` on TCP, `read_holding_registers` on RTU —
after the connection was successfully opened, the `except` clause
returns `None` without `writer.close()` / `client.close()` ever having
run, so the connection is not released on that exit path. -/
theorem probe_leaks_connection_on_exception :
    (get_inverter_model_from_device_tcp (fun _ => none) tcpEnvReadRaises
      "10.0.0.5" 8000 "BA12345678" "CD12345678").opened = true ∧
    (get_inverter_model_from_device_tcp (fun _ => none) tcpEnvReadRaises
      "10.0.0.5" 8000 "BA12345678" "CD12345678").closed = false ∧
    (get_inverter_model_from_device_tcp (fun _ => none) tcpEnvReadRaises
      "10.0.0.5" 8000 "BA12345678" "CD12345678").result = none ∧
    (get_inverter_model_from_device_rtu (fun _ => none) rtuEnvReadRaises
      "/dev/ttyUSB0" 19200 "N" 1 8 1).connected = true ∧
    (get_inverter_model_from_device_rtu (fun _ => none) rtuEnvReadRaises
      "/dev/ttyUSB0" 19200 "N" 1 8 1).closed = false ∧
    (get_inverter_model_from_device_rtu (fun _ => none) rtuEnvReadRaises
      "/dev/ttyUSB0" 19200 "N" 1 8 1).result = none :=
  ⟨rfl, rfl, rfl, rfl, rfl, rfl⟩


/- Helper lemmas for the synthesized RTU serials. -/

set_option maxRecDepth 4096 in
/-- Decimal renderings of the integers below 248 take at most 3
characters. -/
lemma toString_int_length_le_three : ∀ m : Nat, m < 248 → (toString ((m : Int))).length ≤ 3 := by
  decide

/-- Zero-padding a string of at most 10 characters to width 10 yields
exactly 10 characters. -/
lemma zfill_digits_length_of_le (s : String) (h : s.length ≤ 10) :
    (zfill_digits s 10).length = 10 := by
  unfold zfill_digits
  rw [String.length_append]
  show (List.replicate (10 - s.length) '0').length + s.length = 10
  rw [List.length_replicate]
  omega

/-- The `010d` rendering of a slave id in 1..247 is exactly 10
characters. -/
lemma python_format_010d_length (n : Int) (h1 : 1 ≤ n) (h2 : n ≤ 247) :
    (python_format_010d n).length = 10 := by
  have hn : ¬n < 0 := by omega
  unfold python_format_010d
  rw [if_neg hn]
  apply zfill_digits_length_of_le
  have hm : n = ((n.toNat : Nat) : Int) := (Int.toNat_of_nonneg (by omega)).symm
  rw [hm]
  have h3 := toString_int_length_le_three n.toNat (by omega)
  omega

/-- The entry created by the TCP setup step, when there is one, carries
the submitted input, the TCP protocol marker and the probed model. -/
lemma async_step_tcp_entry_characterization (probe : Option String) (inp : TcpUserInput) :
    (async_step_tcp probe inp).entry = none ∨
    (inp.dongle_serial.length = 10 ∧ inp.inverter_serial.length = 10 ∧
      ∃ m, m ≠ "" ∧ probe = some m ∧
        (async_step_tcp probe inp).entry =
          some ((if inp.entityPrefix = "" then "Luxpower Inverter" else inp.entityPrefix),
                { input := inp, protocol := PROTOCOL_TCP, model := m })) := by
  by_cases hD : inp.dongle_serial.length = 10 <;>
    by_cases hI : inp.inverter_serial.length = 10 <;>
    rcases hval : validate_connection_retries
        (.pyInt (inp.connection_retries.getD DEFAULT_CONNECTION_RETRIES)) with er | k
  all_goals
    rcases probe with _ | m
    · left
      simp [async_step_tcp, hval, hD, hI,
        validate_serial_error_of_length_ne (.pyStr inp.dongle_serial),
        validate_serial_error_of_length_ne (.pyStr inp.inverter_serial),
        validate_serial_ok_of_length_eq (.pyStr inp.dongle_serial),
        validate_serial_ok_of_length_eq (.pyStr inp.inverter_serial), str_of]
    · by_cases hm : m = ""
      all_goals first
        | (right
           refine ⟨hD, hI, m, hm, rfl, ?_⟩
           simp [async_step_tcp, hval, hD, hI, hm,
             validate_serial_ok_of_length_eq (.pyStr inp.dongle_serial),
             validate_serial_ok_of_length_eq (.pyStr inp.inverter_serial), str_of]
           done)
        | (left
           simp [async_step_tcp, hval, hD, hI, hm,
             validate_serial_error_of_length_ne (.pyStr inp.dongle_serial),
             validate_serial_error_of_length_ne (.pyStr inp.inverter_serial),
             validate_serial_ok_of_length_eq (.pyStr inp.dongle_serial),
             validate_serial_ok_of_length_eq (.pyStr inp.inverter_serial), str_of]
           done)

/-- The entry created by the RTU setup step, when there is one, carries
the submitted input, the RTU protocol marker, the probed model and the
two synthesized serials. -/
lemma async_step_rtu_entry_characterization (probe : Option String) (inp : RtuUserInput) :
    (async_step_rtu probe inp).entry = none ∨
    (∃ m, m ≠ "" ∧ probe = some m ∧
      (async_step_rtu probe inp).entry =
        some ((if inp.entityPrefix = "" then "Luxpower Inverter RTU" else inp.entityPrefix),
              { input := inp, protocol := PROTOCOL_RTU, model := m,
                dongle_serial := "RTU_DEVICE",
                inverter_serial := "RTU_" ++ python_format_010d inp.slave_id })) := by
  rcases hval : validate_connection_retries
      (.pyInt (inp.connection_retries.getD DEFAULT_CONNECTION_RETRIES)) with er | k
  all_goals
    rcases probe with _ | m
    · left
      simp [async_step_rtu, hval]
    · by_cases hm : m = ""
      all_goals first
        | (right
           refine ⟨m, hm, rfl, ?_⟩
           simp [async_step_rtu, hval, hm]
           done)
        | (left
           simp [async_step_rtu, hval, hm]
           done)

/-- Concrete RTU submission with slave id 1. -/
def rtuInputSlaveOne : RtuUserInput :=
  { serial_port := "/dev/ttyUSB0", baudrate := 19200, parity := "N",
    stopbits := 1, bytesize := 8, slave_id := 1, poll_interval := 60,
    entityPrefix := "", rated_power := 5000, read_only := false,
    register_block_size := 125, connection_retries := some 3,
    enable_device_grouping := true }

/-- Counterexample to C5: the RTU setup flow with slave id 1 and a
successful probe creates a config entry whose inverter serial is
"RTU_0000000001", which is 14 characters long, not 10. -/
theorem rtu_entry_inverter_serial_not_ten :
    ((async_step_rtu (some "LXP-5K") rtuInputSlaveOne).entry.map
        (fun e => (e.2.dongle_serial, e.2.inverter_serial, e.2.inverter_serial.length))) =
      some ("RTU_DEVICE", "RTU_0000000001", 14) ∧
    ((async_step_rtu (some "LXP-5K") rtuInputSlaveOne).entry.map
        (fun e => e.2.inverter_serial.length)) ≠ some 10 := by
  constructor
  · rfl
  · decide

/-- C5 as amended: TCP-created entries store two serials of exactly 10
characters; RTU-created entries store the 10-character dongle serial
"RTU_DEVICE" but an inverter serial "RTU_" followed by the 10-digit
zero-padded slave id, which is 14 characters long for every slave id in
1..247, not 10. -/
theorem setup_entry_serial_lengths (probe : Option String)
    (tinp : TcpUserInput) (rinp : RtuUserInput) :
    (∀ t e, (async_step_tcp probe tinp).entry = some (t, e) →
      e.input.dongle_serial.length = 10 ∧ e.input.inverter_serial.length = 10) ∧
    (∀ t e, (async_step_rtu probe rinp).entry = some (t, e) →
      e.dongle_serial = "RTU_DEVICE" ∧ e.dongle_serial.length = 10 ∧
      e.inverter_serial = "RTU_" ++ python_format_010d rinp.slave_id ∧
      (1 ≤ rinp.slave_id → rinp.slave_id ≤ 247 → e.inverter_serial.length = 14)) := by
  constructor
  · intro t e h
    rcases async_step_tcp_entry_characterization probe tinp with hnone | ⟨hD, hI, m, hm, hp, hent⟩
    · rw [hnone] at h
      exact absurd h (by simp)
    · rw [hent] at h
      have he : e = { input := tinp, protocol := PROTOCOL_TCP, model := m } := by
        have hpair := Option.some.inj h
        exact (congrArg Prod.snd hpair).symm
      subst he
      exact ⟨hD, hI⟩
  · intro t e h
    rcases async_step_rtu_entry_characterization probe rinp with hnone | ⟨m, hm, hp, hent⟩
    · rw [hnone] at h
      exact absurd h (by simp)
    · rw [hent] at h
      have he : e = { input := rinp, protocol := PROTOCOL_RTU, model := m,
                      dongle_serial := "RTU_DEVICE",
                      inverter_serial := "RTU_" ++ python_format_010d rinp.slave_id } := by
        have hpair := Option.some.inj h
        exact (congrArg Prod.snd hpair).symm
      subst he
      refine ⟨rfl, rfl, rfl, ?_⟩
      intro h1 h2
      show ("RTU_" ++ python_format_010d rinp.slave_id).length = 14
      rw [String.length_append, python_format_010d_length rinp.slave_id h1 h2]
      rfl

/-- Concrete TCP submission with two valid 10-character serials. -/
def tcpInputValidSerials : TcpUserInput :=
  { host := "10.0.0.5", port := 8000, dongle_serial := "BA12345678",
    inverter_serial := "CD12345678", poll_interval := 60, entityPrefix := "",
    rated_power := 5000, read_only := false, register_block_size := 125,
    connection_retries := some 3, enable_device_grouping := true }

/-- Entry data the TCP setup step creates for `tcpInputValidSerials`
and model "LXP". -/
def tcpEntryValid : TcpEntryData :=
  { input := tcpInputValidSerials, protocol := PROTOCOL_TCP, model := "LXP" }

/-- Entry data the RTU setup step creates for `rtuInputSlaveOne` and
model "LXP". -/
def rtuEntrySlaveOne : RtuEntryData :=
  { input := rtuInputSlaveOne, protocol := PROTOCOL_RTU, model := "LXP",
    dongle_serial := "RTU_DEVICE",
    inverter_serial := "RTU_" ++ python_format_010d rtuInputSlaveOne.slave_id }

/-- Witness for the amended C5 at concrete entries created with a
successful probe on both transports. -/
theorem setup_entry_serial_lengths_witness :
    (tcpEntryValid.input.dongle_serial.length = 10 ∧
      tcpEntryValid.input.inverter_serial.length = 10) ∧
    (rtuEntrySlaveOne.dongle_serial.length = 10 ∧
      rtuEntrySlaveOne.inverter_serial.length = 14) := by
  have h := setup_entry_serial_lengths (some "LXP") tcpInputValidSerials rtuInputSlaveOne
  have h1 := h.1 "Luxpower Inverter" tcpEntryValid rfl
  have h2 := h.2 "Luxpower Inverter RTU" rtuEntrySlaveOne rfl
  exact ⟨h1, h2.2.1, h2.2.2.2 (by decide) (by decide)⟩

/- Helper lemmas for the options flow. -/

/-- When the dongle serial submitted to the options flow is invalid,
the TCP serial validation either escapes with a `KeyError` (`none`) or
records at least one error. -/
lemma options_tcp_serial_errors_dongle_invalid (ui : Config) (dv : PyValue)
    (hd : dict_get ui "dongle_serial" = some dv) (hlen : (str_of dv).length ≠ 10) :
    options_tcp_serial_errors ui = none ∨
    ∃ l, options_tcp_serial_errors ui = some l ∧ l ≠ [] := by
  unfold options_tcp_serial_errors
  simp only [hd, validate_serial_error_of_length_ne dv hlen]
  rcases hiv : dict_get ui "inverter_serial" with _ | iv
  · simp [hiv]
  · right
    rcases h2 : validate_serial iv with er | s <;> simp [hiv, h2]

/-- When the inverter serial submitted to the options flow is invalid,
the TCP serial validation either escapes with a `KeyError` (`none`) or
records at least one error. -/
lemma options_tcp_serial_errors_inverter_invalid (ui : Config) (iv : PyValue)
    (hi : dict_get ui "inverter_serial" = some iv) (hlen : (str_of iv).length ≠ 10) :
    options_tcp_serial_errors ui = none ∨
    ∃ l, options_tcp_serial_errors ui = some l ∧ l ≠ [] := by
  unfold options_tcp_serial_errors
  rcases hd : dict_get ui "dongle_serial" with _ | dv
  · simp [hd]
  · right
    simp only [hd, hi, validate_serial_error_of_length_ne iv hlen]
    rcases h1 : validate_serial dv with er | s <;> simp [h1]

/-- A list known to be nonempty has `isEmpty = false`. -/
lemma isEmpty_false_of_ne_nil {α : Type} (l : List α) (h : l ≠ []) : l.isEmpty = false := by
  cases l with
  | nil => exact absurd rfl h
  | cons a as => rfl

/-- When the retries validation fails (with `vol.Invalid` or with
`ValueError`), the options flow does not update the entry. -/
lemma options_retries_error_no_update (tp rp : Option String) (ed eo ui : Config) (e : PyErr)
    (h : validate_connection_retries
        ((dict_get ui "connection_retries").getD (.pyInt DEFAULT_CONNECTION_RETRIES)) = Except.error e) :
    (async_step_init tp rp ed eo ui).updated = none := by
  cases e <;> simp [async_step_init, h]

/-- When the stored protocol is TCP and the TCP probe fails, the
options flow does not update the entry. -/
lemma options_tcp_probe_failed_no_update (tp rp : Option String) (ed eo ui : Config)
    (hp : options_protocol_is_tcp (dict_merge ed eo) = true) (ht : tp = none) :
    (async_step_init tp rp ed eo ui).updated = none := by
  subst ht
  rcases hval : validate_connection_retries
      ((dict_get ui "connection_retries").getD (.pyInt DEFAULT_CONNECTION_RETRIES)) with er | k
  · cases er <;> simp [async_step_init, hval]
  · rcases hse : options_tcp_serial_errors ui with _ | serialErrs
    · simp [async_step_init, hval, hp, hse]
    · by_cases hne : serialErrs.isEmpty <;>
        by_cases hk : options_tcp_probe_keys_present ui <;>
        simp [async_step_init, hval, hp, hse, hne, hk]

/-- When the stored protocol is RTU and the RTU probe fails, the
options flow does not update the entry. -/
lemma options_rtu_probe_failed_no_update (tp rp : Option String) (ed eo ui : Config)
    (hp : options_protocol_is_tcp (dict_merge ed eo) = false) (hr : rp = none) :
    (async_step_init tp rp ed eo ui).updated = none := by
  subst hr
  rcases hval : validate_connection_retries
      ((dict_get ui "connection_retries").getD (.pyInt DEFAULT_CONNECTION_RETRIES)) with er | k
  · cases er <;> simp [async_step_init, hval]
  · by_cases hk : options_rtu_probe_keys_present ui <;>
      simp [async_step_init, hval, hp, hk]

/-- When the stored protocol is TCP and a submitted serial is invalid,
the options flow does not update the entry. -/
lemma options_tcp_serial_invalid_no_update (tp rp : Option String) (ed eo ui : Config)
    (hp : options_protocol_is_tcp (dict_merge ed eo) = true)
    (hbad : options_tcp_serial_errors ui = none ∨
      ∃ l, options_tcp_serial_errors ui = some l ∧ l ≠ []) :
    (async_step_init tp rp ed eo ui).updated = none := by
  rcases hval : validate_connection_retries
      ((dict_get ui "connection_retries").getD (.pyInt DEFAULT_CONNECTION_RETRIES)) with er | k
  · cases er <;> simp [async_step_init, hval]
  · rcases hbad with hse | ⟨l, hse, hne⟩
    · simp [async_step_init, hval, hp, hse]
    · simp [async_step_init, hval, hp, hse, isEmpty_false_of_ne_nil l hne]

/-- Shape of a successful options-flow update: the new data is the
previous configuration overlaid with the submitted fields plus the
freshly probed model of the stored protocol, and no error was
recorded. -/
lemma options_updated_shape (tp rp : Option String) (ed eo ui : Config) (d : Config)
    (h : (async_step_init tp rp ed eo ui).updated = some d) :
    ∃ m, m ≠ "" ∧
      (options_protocol_is_tcp (dict_merge ed eo) = true → tp = some m) ∧
      (options_protocol_is_tcp (dict_merge ed eo) = false → rp = some m) ∧
      d = dict_insert (dict_merge (dict_merge ed eo) ui) "model" (.pyStr m) ∧
      (async_step_init tp rp ed eo ui).errors = [] := by
  rcases hval : validate_connection_retries
      ((dict_get ui "connection_retries").getD (.pyInt DEFAULT_CONNECTION_RETRIES)) with er | k
  · cases er <;> simp [async_step_init, hval] at h
  · by_cases hp : options_protocol_is_tcp (dict_merge ed eo)
    · rcases hse : options_tcp_serial_errors ui with _ | serialErrs
      · simp [async_step_init, hval, hp, hse] at h
      · by_cases hne : serialErrs.isEmpty
        · by_cases hk : options_tcp_probe_keys_present ui
          · rcases tp with _ | m
            · simp [async_step_init, hval, hp, hse, hne, hk] at h
            · by_cases hm : m = ""
              · simp [async_step_init, hval, hp, hse, hne, hk, hm] at h
              · simp [async_step_init, hval, hp, hse, hne, hk, hm] at h
                refine ⟨m, hm, fun _ => rfl, fun hf => absurd hp (by simp [hf]), h.symm, ?_⟩
                simp [async_step_init, hval, hp, hse, hne, hk, hm]
          · simp [async_step_init, hval, hp, hse, hne, hk] at h
        · simp [async_step_init, hval, hp, hse, hne] at h
    · by_cases hk : options_rtu_probe_keys_present ui
      · rcases rp with _ | m
        · simp [async_step_init, hval, hp, hk] at h
        · by_cases hm : m = ""
          · simp [async_step_init, hval, hp, hk, hm] at h
          · simp [async_step_init, hval, hp, hk, hm] at h
            refine ⟨m, hm, fun hf => absurd hp (by simp [hf]), fun _ => rfl, h.symm, ?_⟩
            simp [async_step_init, hval, hp, hk, hm]
      · simp [async_step_init, hval, hp, hk] at h

/-- C4: a reconfiguration submission replaces the stored configuration
with the previous configuration overlaid with the submitted fields plus
the freshly probed model, and only after every field validation and the
model probe succeed; if the retries validation, a serial validation or
the probe fails, the stored config entry is left unchanged. -/
theorem options_flow_update_semantics (tp rp : Option String) (ed eo ui : Config) :
    (∀ d, (async_step_init tp rp ed eo ui).updated = some d →
      ∃ m, m ≠ "" ∧
        (options_protocol_is_tcp (dict_merge ed eo) = true → tp = some m) ∧
        (options_protocol_is_tcp (dict_merge ed eo) = false → rp = some m) ∧
        d = dict_insert (dict_merge (dict_merge ed eo) ui) "model" (.pyStr m) ∧
        (async_step_init tp rp ed eo ui).errors = []) ∧
    (∀ e, validate_connection_retries
        ((dict_get ui "connection_retries").getD (.pyInt DEFAULT_CONNECTION_RETRIES)) = Except.error e →
      (async_step_init tp rp ed eo ui).updated = none) ∧
    (∀ dv, options_protocol_is_tcp (dict_merge ed eo) = true →
      dict_get ui "dongle_serial" = some dv → (str_of dv).length ≠ 10 →
      (async_step_init tp rp ed eo ui).updated = none) ∧
    (∀ iv, options_protocol_is_tcp (dict_merge ed eo) = true →
      dict_get ui "inverter_serial" = some iv → (str_of iv).length ≠ 10 →
      (async_step_init tp rp ed eo ui).updated = none) ∧
    (options_protocol_is_tcp (dict_merge ed eo) = true → tp = none →
      (async_step_init tp rp ed eo ui).updated = none) ∧
    (options_protocol_is_tcp (dict_merge ed eo) = false → rp = none →
      (async_step_init tp rp ed eo ui).updated = none) ∧
    ((async_step_init tp rp ed eo ui).errors ≠ [] →
      (async_step_init tp rp ed eo ui).updated = none) := by
  refine ⟨?_, ?_, ?_, ?_, ?_, ?_, ?_⟩
  · intro d h
    exact options_updated_shape tp rp ed eo ui d h
  · intro e h
    exact options_retries_error_no_update tp rp ed eo ui e h
  · intro dv hp hd hlen
    exact options_tcp_serial_invalid_no_update tp rp ed eo ui hp
      (options_tcp_serial_errors_dongle_invalid ui dv hd hlen)
  · intro iv hp hi hlen
    exact options_tcp_serial_invalid_no_update tp rp ed eo ui hp
      (options_tcp_serial_errors_inverter_invalid ui iv hi hlen)
  · intro hp ht
    exact options_tcp_probe_failed_no_update tp rp ed eo ui hp ht
  · intro hp hr
    exact options_rtu_probe_failed_no_update tp rp ed eo ui hp hr
  · intro hne
    rcases hu : (async_step_init tp rp ed eo ui).updated with _ | d
    · rfl
    · obtain ⟨m, hm, h1, h2, h3, herrs⟩ := options_updated_shape tp rp ed eo ui d hu
      exact absurd herrs hne

/-- Stored entry data for the C4 witness: a TCP configuration. -/
def optionsEntryData : Config :=
  [("protocol", .pyStr "tcp"), ("host", .pyStr "10.0.0.5"), ("port", .pyInt 8000),
   ("dongle_serial", .pyStr "BA12345678"), ("inverter_serial", .pyStr "CD12345678"),
   ("poll_interval", .pyInt 60)]

/-- Submitted options form for the C4 witness. -/
def optionsUserInput : Config :=
  [("host", .pyStr "10.0.0.9"), ("port", .pyInt 8000),
   ("dongle_serial", .pyStr "BA12345678"), ("inverter_serial", .pyStr "CD12345678"),
   ("connection_retries", .pyInt 3)]

/-- Witness for C4 at concrete inputs: a successful submission records
no error, and the same submission with a failed probe leaves the entry
unchanged. -/
theorem options_flow_update_semantics_witness :
    (async_step_init (some "LXP") none optionsEntryData [] optionsUserInput).errors = [] ∧
    (async_step_init none none optionsEntryData [] optionsUserInput).updated = none := by
  constructor
  · obtain ⟨m, hm, h1, h2, h3, herrs⟩ :=
      (options_flow_update_semantics (some "LXP") none optionsEntryData [] optionsUserInput).1
        (dict_insert (dict_merge (dict_merge optionsEntryData []) optionsUserInput)
          "model" (.pyStr "LXP")) rfl
    exact herrs
  · exact (options_flow_update_semantics none none optionsEntryData [] optionsUserInput).2.2.2.2.1
      (by decide) rfl
